import Mathlib

/-!
# Verification of the `saia` pickup-request client

A shallow embedding of `src/saia.go` (package `saia`), a client for the SAIA
trucking carrier's XML pickup API, together with proofs of the specified
properties.

Modelling conventions:
* Go strings are Lean `String`.
* `time.Duration` is an `int64` count of nanoseconds; we model it as `Int`
  with wrap-around applied where the code multiplies (`int64wrap`).
* Go `uint` fields (`Pieces`, `TotalPieces`) are `Nat`.
* Go `float64` fields (`Weight`, `TotalWeight`) hold finite IEEE-754 doubles,
  which are rational numbers; we model them as `Rat` (see `floatRepr`).
* The two package-level variables `testMode` and `timeout` become an explicit
  `SaiaState` record threaded through the operations.
* The network is an oracle (`NetOutcome`): the outcome of the single HTTP
  POST / body-read / `xml.Unmarshal` sequence performed by `RequestPickup`.
* A Go `error` is `Option String` (its `Error()` text); `errors.Wrap(err, m)`
  produces the text `m ++ ": " ++ err.Error()` (github.com/pkg/errors), and
  `errors.New m` produces `m`.
-/

/-- Go: `const saiaURL = "http://www.saiasecure.com/webservice/pickup/xml.aspx"`.
The single, constant API URL. -/
def saiaURL : String := "http://www.saiasecure.com/webservice/pickup/xml.aspx"

/-- One second in nanoseconds: Go `time.Second`. -/
def goSecond : Int := 1000000000

/-- Wrap an integer into the `int64` range, as Go arithmetic on
`time.Duration` (an `int64`) does. -/
def int64wrap (x : Int) : Int := (x + 2 ^ 63) % 2 ^ 64 - 2 ^ 63

/-- The package-level mutable state of `saia.go`: the variables
`testMode` (line 37) and `timeout` (line 42). -/
structure SaiaState where
  testMode : String
  timeout : Int
  deriving Repr, DecidableEq

/-- The initial values of the package-level variables:
`var testMode = "Y"` and `var timeout = time.Duration(10 * time.Second)`. -/
def initState : SaiaState := { testMode := "Y", timeout := int64wrap (10 * goSecond) }

/-- Go: `func SetProductionMode(yes bool)` — sets `testMode = "N"` when
`yes` is true, does nothing otherwise. -/
def SetProductionMode (yes : Bool) (s : SaiaState) : SaiaState :=
  if yes then { s with testMode := "N" } else s

/-- Go: `func SetTimeout(seconds time.Duration)` — stores
`time.Duration(seconds * time.Second)`, i.e. the argument multiplied by
`10^9`, with `int64` wrap-around. -/
def SetTimeout (seconds : Int) (s : SaiaState) : SaiaState :=
  { s with timeout := int64wrap (seconds * goSecond) }

/-- Go struct `Item` (saia.go lines 101-111): shipment details.
`Pieces` is a Go `uint` (modelled `Nat`); `Weight` a `float64`
(modelled `Rat`, see module comment). -/
structure Item where
  DestinationZipcode : String
  Pieces : Nat
  Package : String
  Weight : Rat
  DestinationCountry : String
  Freezable : String
  deriving Repr, DecidableEq

/-- Go struct `Request` (saia.go lines 76-98): the pickup request data.
The `XMLName xml.Name` tag `"Create"` names the root element and is not a
data field; the `Item` field carries the tag `xml:"Details>DetailItem"`. -/
structure Request where
  Item : Item
  UserID : String
  Password : String
  TestMode : String
  AccountNumber : String
  CompanyName : String
  Street : String
  City : String
  State : String
  Zipcode : String
  ContactName : String
  ContactPhone : String
  PickupDate : String
  ReadyTime : String
  CloseTime : String
  SpecialInstructions : String
  deriving Repr, DecidableEq

/-- Go struct `PickupTerminal` (saia.go lines 129-142). -/
structure PickupTerminal where
  ID : String := ""
  Name : String := ""
  Manager : String := ""
  Address1 : String := ""
  Address2 : String := ""
  City : String := ""
  State : String := ""
  Zipcode : String := ""
  CityDispatchPhone : String := ""
  CustomerServicePhone : String := ""
  TollFreePhone : String := ""
  Fax : String := ""
  deriving Repr, DecidableEq

/-- Go struct `ResponseData` (saia.go lines 115-126). -/
structure ResponseData where
  Code : String := ""
  Element : String := ""
  Fault : String := ""
  Message : String := ""
  TestMode : String := ""
  PickupNumber : String := ""
  TotalPieces : Nat := 0
  TotalWeight : Rat := 0
  NextBusinessDay : String := ""
  PickupTerminal : PickupTerminal := {}
  deriving Repr, DecidableEq

/-- The zero value of `ResponseData`, as Go initialises the named return
`responseData` in `RequestPickup`. -/
def zeroResponseData : ResponseData := {}

/-- Outcome of the single network exchange in `RequestPickup`, as an oracle:
either `httpClient.Post` fails, or `ioutil.ReadAll` fails, or
`xml.Unmarshal` fails (possibly leaving partly-filled data in
`responseData`), or the body parses to a `ResponseData`.  `status` on
`parsed` is the HTTP status code of the response, which the code never
inspects. -/
inductive NetOutcome where
  | postError (msg : String)
  | readError (msg : String)
  | unmarshalError (msg : String) (filled : ResponseData)
  | parsed (status : Nat) (rd : ResponseData)
  deriving Repr, DecidableEq

/-- One HTTP POST as issued by `httpClient.Post(saiaURL, "text/xml", body)`. -/
structure PostCall where
  url : String
  contentType : String
  body : String
  deriving Repr, DecidableEq

/-- The observable result of one `RequestPickup` call: the request value
after the method's mutation of `p.TestMode`, the returned `ResponseData`,
the returned error text (`none` = nil error), and the list of HTTP POSTs
issued during the call. -/
structure RequestResult where
  req : Request
  resp : ResponseData
  err : Option String
  posts : List PostCall
  deriving Repr, DecidableEq

/-- Go: `xml.Header`, prepended to the marshalled bytes at line 172. -/
def xmlHeader : String := "<?xml version=\"1.0\" encoding=\"UTF-8\"?>\n"

/-- Go: `func (p *Request) RequestPickup() (responseData ResponseData, err error)`
(saia.go lines 160-215), with the XML marshalling factored out as the
`marshal` argument (instantiated with the concrete serializer below) and the
network as the `net` oracle.  `xml.Marshal` cannot fail on this struct type
(no map/func/channel fields), so the marshal-error branch at line 166 is
never taken and the model's serializer is total. -/
def RequestPickupWith (marshal : Request → String) (s : SaiaState) (p : Request)
    (net : NetOutcome) : RequestResult :=
  -- line 162: p.TestMode = testMode
  let p := { p with TestMode := s.testMode }
  -- lines 165-172: xmlBytes, err := xml.Marshal(p); xmlString := xml.Header + string(xmlBytes)
  let xmlString := xmlHeader ++ marshal p
  -- line 180: res, err := httpClient.Post(saiaURL, "text/xml", strings.NewReader(xmlString))
  let post : PostCall := { url := saiaURL, contentType := "text/xml", body := xmlString }
  match net with
  | .postError m =>
      -- line 182: err = errors.Wrap(err, "saia.RequestPickup - could not make post request")
      { req := p, resp := zeroResponseData,
        err := some ("saia.RequestPickup - could not make post request: " ++ m),
        posts := [post] }
  | .readError m =>
      -- line 191: err = errors.Wrap(err, "saia.RequestPickup - could not read response 1")
      { req := p, resp := zeroResponseData,
        err := some ("saia.RequestPickup - could not read response 1: " ++ m),
        posts := [post] }
  | .unmarshalError m filled =>
      -- line 197: err = errors.Wrap(err, "saia.RequestPickup - could not read response 2")
      { req := p, resp := filled,
        err := some ("saia.RequestPickup - could not read response 2: " ++ m),
        posts := [post] }
  | .parsed _ rd =>
      -- lines 201-208: business-level classification
      if rd.Code != "" || rd.PickupNumber == "" then
        -- err = errors.New("saia.RequestPickup - pickup request failed")
        -- err = errors.Wrap(err, responseData.Message)
        { req := p, resp := rd,
          err := some (rd.Message ++ ": " ++ "saia.RequestPickup - pickup request failed"),
          posts := [post] }
      else
        { req := p, resp := rd, err := none, posts := [post] }

/-! ## Decimal codec

`xml.Marshal` renders `Pieces` (a `uint`) in decimal via `strconv`;
`xml.Unmarshal` parses it back with `strconv.ParseUint`.  We implement the
decimal rendering and its parser and prove they round-trip. -/

/-- The character of a decimal digit value, `'0'`..`'9'`. -/
def digitCh (d : Nat) : Char := Char.ofNat (d + 48)

/-- The digit value of a decimal digit character. -/
def charVal (c : Char) : Nat := c.toNat - 48

/-- The decimal digit characters of `n`, most significant first
(Go `strconv.FormatUint(n, 10)`). -/
def natReprChars (n : Nat) : List Char :=
  if n = 0 then ['0'] else (Nat.digits 10 n).reverse.map digitCh

/-- Go `strconv` decimal rendering of an unsigned integer. -/
def natRepr (n : Nat) : String := String.mk (natReprChars n)

/-- Read a digit-character list, most significant first, as a number. -/
def digitsVal (cs : List Char) : Nat := cs.foldl (fun a c => a * 10 + charVal c) 0

/-- Model of `strconv.ParseUint(s, 10, 64)` restricted to the digit grammar:
succeeds exactly on a nonempty all-digit string. -/
def parseNatChars (cs : List Char) : Option Nat :=
  if cs.isEmpty then none
  else if cs.all Char.isDigit then some (digitsVal cs) else none

/-- String-level entry point for the unsigned decimal parser. -/
def parseNat (s : String) : Option Nat := parseNatChars s.data

theorem charVal_digitCh : ∀ d < 10, charVal (digitCh d) = d := by decide

theorem isDigit_digitCh : ∀ d < 10, (digitCh d).isDigit = true := by decide

theorem mem_natReprChars_isDigit (n : Nat) : ∀ c ∈ natReprChars n, c.isDigit = true := by
  intro c hc
  unfold natReprChars at hc
  split at hc
  · simp only [List.mem_singleton] at hc
    subst hc; decide
  · simp only [List.mem_map, List.mem_reverse] at hc
    obtain ⟨d, hd, rfl⟩ := hc
    exact isDigit_digitCh d (Nat.digits_lt_base (by norm_num) hd)

theorem natReprChars_ne_nil (n : Nat) : natReprChars n ≠ [] := by
  unfold natReprChars
  split
  · simp
  · simp only [ne_eq, List.map_eq_nil_iff, List.reverse_eq_nil_iff]
    exact Nat.digits_ne_nil_iff_ne_zero.mpr (by assumption)

theorem foldl_map_digitCh (l : List Nat) (h : ∀ d ∈ l, d < 10) (init : Nat) :
    List.foldl (fun a c => a * 10 + charVal c) init (l.map digitCh)
      = List.foldl (fun a d => a * 10 + d) init l := by
  induction l generalizing init with
  | nil => rfl
  | cons d t ih =>
      simp only [List.map_cons, List.foldl_cons]
      rw [charVal_digitCh d (h d (List.mem_cons_self d t))]
      exact ih (fun x hx => h x (List.mem_cons_of_mem d hx)) _

theorem foldl_reverse_ofDigits (l : List Nat) :
    List.foldl (fun a d => a * 10 + d) 0 l.reverse = Nat.ofDigits 10 l := by
  rw [List.foldl_reverse]
  induction l with
  | nil => simp [Nat.ofDigits_nil]
  | cons d t ih =>
      simp only [List.foldr_cons, Nat.ofDigits_cons, ih]
      ring

theorem digitsVal_natReprChars (n : Nat) : digitsVal (natReprChars n) = n := by
  unfold natReprChars digitsVal
  split
  · subst_vars; decide
  · rw [foldl_map_digitCh]
    · rw [foldl_reverse_ofDigits, Nat.ofDigits_digits]
    · intro d hd
      rw [List.mem_reverse] at hd
      exact Nat.digits_lt_base (by norm_num) hd

/-- Parsing the decimal rendering of any `Nat` recovers it. -/
theorem parseNat_natRepr (n : Nat) : parseNat (natRepr n) = some n := by
  show parseNatChars (natReprChars n) = some n
  unfold parseNatChars
  rw [if_neg, if_pos]
  · rw [digitsVal_natReprChars]
  · rw [List.all_eq_true]
    exact mem_natReprChars_isDigit n
  · simp [List.isEmpty_iff, natReprChars_ne_nil n]

/-! ## Rational codec for the `float64` fields

Go renders `Weight` with `strconv.FormatFloat(w, 'g', -1, 64)` and parses it
back with `strconv.ParseFloat`; `strconv` guarantees that the shortest
rendering parses back to exactly the same `float64`.  Finite `float64`
values are rational numbers, so we model the value as `Rat` and this
round-tripping codec by a concrete injective rendering with its parser;
IEEE-754 shortest-decimal formatting itself is not embeddable. -/

/-- Rendering of a `float64` value (modelled as `Rat`), as characters:
optional sign, numerator digits, a solidus, denominator digits. -/
def floatReprChars (q : Rat) : List Char :=
  (if q.num < 0 then ['-'] else []) ++ natReprChars q.num.natAbs
    ++ '/' :: natReprChars q.den

/-- String form of `floatReprChars`. -/
def floatRepr (q : Rat) : String := String.mk (floatReprChars q)

/-- Split off the longest run of leading decimal digits. -/
def spanDigits : List Char → List Char × List Char
  | [] => ([], [])
  | c :: cs =>
      if c.isDigit then ((c :: (spanDigits cs).1), (spanDigits cs).2)
      else ([], c :: cs)

/-- Parse `digits '/' digits` as a rational; reject anything else and a zero
denominator. -/
def parseFracChars (cs : List Char) : Option Rat :=
  if (spanDigits cs).1.isEmpty then none
  else
    match (spanDigits cs).2 with
    | '/' :: rest =>
        if (spanDigits rest).1.isEmpty then none
        else if !(spanDigits rest).2.isEmpty then none
        else if digitsVal (spanDigits rest).1 = 0 then none
        else some ((digitsVal (spanDigits cs).1 : Rat) / (digitsVal (spanDigits rest).1 : Rat))
    | _ => none

/-- Parse an optionally negated fraction. -/
def parseFloatChars : List Char → Option Rat
  | [] => none
  | c :: rest =>
      if c = '-' then (parseFracChars rest).map (fun q => -q)
      else parseFracChars (c :: rest)

/-- String-level entry point for the `float64` parser. -/
def parseFloat (s : String) : Option Rat := parseFloatChars s.data

theorem spanDigits_append (l r : List Char) (hl : ∀ c ∈ l, c.isDigit = true)
    (hr : ∀ c, r.head? = some c → c.isDigit = false) :
    spanDigits (l ++ r) = (l, r) := by
  induction l with
  | nil =>
      cases r with
      | nil => rfl
      | cons c cs =>
          show spanDigits (c :: cs) = ([], c :: cs)
          unfold spanDigits
          rw [if_neg]
          simp [hr c rfl]
  | cons c t ih =>
      show spanDigits (c :: (t ++ r)) = (c :: t, r)
      unfold spanDigits
      rw [if_pos (hl c (List.mem_cons_self c t))]
      rw [ih (fun x hx => hl x (List.mem_cons_of_mem c hx))]

theorem parseFracChars_repr (a b : Nat) (hb : b ≠ 0) :
    parseFracChars (natReprChars a ++ '/' :: natReprChars b)
      = some ((a : Rat) / (b : Rat)) := by
  have hspan1 : spanDigits (natReprChars a ++ '/' :: natReprChars b)
      = (natReprChars a, '/' :: natReprChars b) :=
    spanDigits_append _ _ (mem_natReprChars_isDigit a)
      (by intro c hc; simp only [List.head?_cons, Option.some.injEq] at hc; subst hc; decide)
  have hspan2 : spanDigits (natReprChars b) = (natReprChars b, []) := by
    have h := spanDigits_append (natReprChars b) [] (mem_natReprChars_isDigit b)
      (by intro c hc; simp at hc)
    simpa using h
  unfold parseFracChars
  rw [hspan1]
  simp only [List.isEmpty_iff]
  rw [if_neg (natReprChars_ne_nil a)]
  rw [hspan2]
  simp only [List.isEmpty_iff]
  rw [if_neg (natReprChars_ne_nil b)]
  simp only [Bool.not_eq_true']
  rw [if_neg (by simp), if_neg (by rw [digitsVal_natReprChars]; exact hb)]
  rw [digitsVal_natReprChars, digitsVal_natReprChars]

/-- Parsing the rendering of any rational recovers it. -/
theorem parseFloat_floatRepr (q : Rat) : parseFloat (floatRepr q) = some q := by
  show parseFloatChars (floatReprChars q) = some q
  have hden : q.den ≠ 0 := q.den_nz
  unfold floatReprChars
  by_cases hn : q.num < 0
  · rw [if_pos hn]
    show parseFloatChars ('-' :: (natReprChars q.num.natAbs ++ '/' :: natReprChars q.den))
      = some q
    simp only [parseFloatChars]
    rw [if_pos trivial]
    rw [parseFracChars_repr _ _ hden]
    have hcast2 : ((q.num.natAbs : ℚ)) = -(q.num : ℚ) := by
      have h : (q.num.natAbs : ℤ) = -q.num := Int.ofNat_natAbs_of_nonpos (le_of_lt hn)
      calc ((q.num.natAbs : ℚ)) = (((q.num.natAbs : ℤ)) : ℚ) := (Int.cast_natCast q.num.natAbs).symm
      _ = (((-q.num : ℤ)) : ℚ) := by rw [h]
      _ = -(q.num : ℚ) := by push_cast; ring
    simp only [Option.map_some']
    rw [hcast2, neg_div, neg_neg, Rat.num_div_den]
  · rw [if_neg hn]
    simp only [List.nil_append]
    obtain ⟨c, t, hct⟩ : ∃ c t, natReprChars q.num.natAbs = c :: t := by
      cases h : natReprChars q.num.natAbs with
      | nil => exact absurd h (natReprChars_ne_nil _)
      | cons c t => exact ⟨c, t, rfl⟩
    have hcdigit : c.isDigit = true := by
      apply mem_natReprChars_isDigit q.num.natAbs
      rw [hct]
      exact List.mem_cons_self c t
    have hcne : c ≠ '-' := by
      intro h
      subst h
      simp at hcdigit
    rw [hct, List.cons_append]
    simp only [parseFloatChars]
    rw [if_neg hcne, ← List.cons_append, ← hct]
    rw [parseFracChars_repr _ _ hden]
    have hcast : ((q.num.natAbs : ℚ)) = (q.num : ℚ) := by
      have h : (q.num.natAbs : ℤ) = q.num := Int.natAbs_of_nonneg (not_lt.mp hn)
      calc ((q.num.natAbs : ℚ)) = (((q.num.natAbs : ℤ)) : ℚ) := (Int.cast_natCast q.num.natAbs).symm
      _ = (q.num : ℚ) := by rw [h]
    rw [hcast, Rat.num_div_den]

/-! ## XML serialization of `Request`

`xml.Marshal` on `Request` emits `<Create>` with one child element per
struct field in declaration order, the `Item` field nested as
`Details>DetailItem` per its tag, and character data escaped as by
`xml.EscapeText`. -/

/-- Go `xml.EscapeText` replacement for a single character.  (Go's
invalid-rune replacement cannot arise: a Lean `Char` is always a Unicode
scalar value.) -/
def escChar (c : Char) : List Char :=
  if c = '"' then "&#34;".data
  else if c = Char.ofNat 39 then "&#39;".data
  else if c = '&' then "&amp;".data
  else if c = '<' then "&lt;".data
  else if c = '>' then "&gt;".data
  else if c = Char.ofNat 9 then "&#x9;".data
  else if c = Char.ofNat 10 then "&#xA;".data
  else if c = Char.ofNat 13 then "&#xD;".data
  else [c]

/-- `xml.EscapeText` over a character list. -/
def escapeChars (cs : List Char) : List Char :=
  cs.foldr (fun c acc => escChar c ++ acc) []

/-- `xml.EscapeText` on a string. -/
def escapeXml (s : String) : String := String.mk (escapeChars s.data)

/-- One XML element with the given rendered content. -/
def xmlElem (tag : String) (content : String) : String :=
  "<" ++ tag ++ ">" ++ content ++ "</" ++ tag ++ ">"

/-- The `DetailItem` element of the outbound document: one character-data
field per `Item` struct field, numbers already rendered to text. -/
structure DetailItemDoc where
  destinationZipcode : String
  pieces : String
  package : String
  weight : String
  destinationCountry : String
  freezable : String
  deriving Repr, DecidableEq

/-- The outbound `<Create>` document produced by `xml.Marshal` on
`Request`: one character-data field per struct field in declaration order,
with the item under `Details>DetailItem`. -/
structure CreateDoc where
  detailItem : DetailItemDoc
  userID : String
  password : String
  testMode : String
  accountNumber : String
  companyName : String
  street : String
  city : String
  state : String
  zipcode : String
  contactName : String
  contactPhone : String
  pickupDate : String
  readyTime : String
  closeTime : String
  specialInstructions : String
  deriving Repr, DecidableEq

/-- `xml.Marshal` on `Item`, at the document level. -/
def marshalItemDoc (it : Item) : DetailItemDoc :=
  { destinationZipcode := it.DestinationZipcode
    pieces := natRepr it.Pieces
    package := it.Package
    weight := floatRepr it.Weight
    destinationCountry := it.DestinationCountry
    freezable := it.Freezable }

/-- `xml.Marshal` on `Request`, at the document level. -/
def marshalDoc (p : Request) : CreateDoc :=
  { detailItem := marshalItemDoc p.Item
    userID := p.UserID
    password := p.Password
    testMode := p.TestMode
    accountNumber := p.AccountNumber
    companyName := p.CompanyName
    street := p.Street
    city := p.City
    state := p.State
    zipcode := p.Zipcode
    contactName := p.ContactName
    contactPhone := p.ContactPhone
    pickupDate := p.PickupDate
    readyTime := p.ReadyTime
    closeTime := p.CloseTime
    specialInstructions := p.SpecialInstructions }

/-- `xml.Unmarshal` of a `DetailItem` element back into `Item`: the numeric
fields go through `strconv`; a parse failure fails the unmarshal. -/
def unmarshalItemDoc (d : DetailItemDoc) : Option Item :=
  match parseNat d.pieces, parseFloat d.weight with
  | some pieces, some weight =>
      some { DestinationZipcode := d.destinationZipcode
             Pieces := pieces
             Package := d.package
             Weight := weight
             DestinationCountry := d.destinationCountry
             Freezable := d.freezable }
  | _, _ => none

/-- `xml.Unmarshal` of a carrier-shaped `<Create>` document back into
`Request`. -/
def unmarshalDoc (d : CreateDoc) : Option Request :=
  match unmarshalItemDoc d.detailItem with
  | some it =>
      some { Item := it
             UserID := d.userID
             Password := d.password
             TestMode := d.testMode
             AccountNumber := d.accountNumber
             CompanyName := d.companyName
             Street := d.street
             City := d.city
             State := d.state
             Zipcode := d.zipcode
             ContactName := d.contactName
             ContactPhone := d.contactPhone
             PickupDate := d.pickupDate
             ReadyTime := d.readyTime
             CloseTime := d.closeTime
             SpecialInstructions := d.specialInstructions }
  | none => none

/-- Textual rendering of the `DetailItem` element, as Go writes it. -/
def renderDetailItem (d : DetailItemDoc) : String :=
  xmlElem "DetailItem"
    (xmlElem "DestinationZipcode" (escapeXml d.destinationZipcode)
      ++ xmlElem "Pieces" (escapeXml d.pieces)
      ++ xmlElem "Package" (escapeXml d.package)
      ++ xmlElem "Weight" (escapeXml d.weight)
      ++ xmlElem "DestinationCountry" (escapeXml d.destinationCountry)
      ++ xmlElem "Freezable" (escapeXml d.freezable))

/-- Textual rendering of the fifteen scalar fields of the `<Create>`
document, in struct order. -/
def renderTopFields (d : CreateDoc) : String :=
  xmlElem "UserID" (escapeXml d.userID)
      ++ xmlElem "Password" (escapeXml d.password)
      ++ xmlElem "TestMode" (escapeXml d.testMode)
      ++ xmlElem "AccountNumber" (escapeXml d.accountNumber)
      ++ xmlElem "CompanyName" (escapeXml d.companyName)
      ++ xmlElem "Street" (escapeXml d.street)
      ++ xmlElem "City" (escapeXml d.city)
      ++ xmlElem "State" (escapeXml d.state)
      ++ xmlElem "Zipcode" (escapeXml d.zipcode)
      ++ xmlElem "ContactName" (escapeXml d.contactName)
      ++ xmlElem "ContactPhone" (escapeXml d.contactPhone)
      ++ xmlElem "PickupDate" (escapeXml d.pickupDate)
      ++ xmlElem "ReadyTime" (escapeXml d.readyTime)
      ++ xmlElem "CloseTime" (escapeXml d.closeTime)
      ++ xmlElem "SpecialInstructions" (escapeXml d.specialInstructions)

/-- Textual rendering of the whole `<Create>` document, as Go writes it:
the nested `Details>DetailItem` element first (the `Item` field comes first
in the struct), then the scalar fields. -/
def renderCreateDoc (d : CreateDoc) : String :=
  xmlElem "Create"
    (xmlElem "Details" (renderDetailItem d.detailItem) ++ renderTopFields d)

/-- The string `xml.Marshal(p)` produces (saia.go line 165). -/
def marshalRequest (p : Request) : String := renderCreateDoc (marshalDoc p)

/-- The concrete `RequestPickup` of saia.go, with the real serializer. -/
def RequestPickup (s : SaiaState) (p : Request) (net : NetOutcome) : RequestResult :=
  RequestPickupWith marshalRequest s p net

/-- Document-level round trip: unmarshalling the marshalled document
recovers every field of the request. -/
theorem unmarshalDoc_marshalDoc (p : Request) : unmarshalDoc (marshalDoc p) = some p := by
  unfold unmarshalDoc marshalDoc unmarshalItemDoc marshalItemDoc
  simp only [parseNat_natRepr, parseFloat_floatRepr]

/-! ## Sequences of public operations -/

/-- The public operations of the package, for stating invariants over the
package-level state. -/
inductive ApiOp where
  | setProductionMode (yes : Bool)
  | setTimeout (seconds : Int)
  | requestPickup (p : Request) (net : NetOutcome)

/-- Effect of one public operation on the package-level state;
`RequestPickup` reads the state (lines 162 and 178) but never writes it. -/
def applyOp : ApiOp → SaiaState → SaiaState
  | .setProductionMode b, s => SetProductionMode b s
  | .setTimeout d, s => SetTimeout d s
  | .requestPickup _ _, s => s

/-- Effect of a sequence of public operations, applied left to right. -/
def applyOps (ops : List ApiOp) (s : SaiaState) : SaiaState :=
  ops.foldl (fun s op => applyOp op s) s

/-! ## Concrete values for instantiating claims -/

/-- A concrete shipment item. -/
def sampleItem : Item :=
  { DestinationZipcode := "30301", Pieces := 2, Package := "SK",
    Weight := 351 / 2, DestinationCountry := "US", Freezable := "N" }

/-- A concrete, fully populated pickup request (caller-set `TestMode` is
deliberately a junk value to exercise the overwrite). -/
def sampleRequest : Request :=
  { Item := sampleItem, UserID := "user", Password := "pw", TestMode := "Q",
    AccountNumber := "12345", CompanyName := "Acme", Street := "1 Main St",
    City := "Atlanta", State := "GA", Zipcode := "30301", ContactName := "Pat",
    ContactPhone := "555-0100", PickupDate := "2020-01-02",
    ReadyTime := "08:00:00", CloseTime := "17:00:00",
    SpecialInstructions := "dock 4" }

/-- A parsed carrier response indicating success. -/
def sampleOkNet : NetOutcome :=
  .parsed 200 { PickupNumber := "ABC123", Message := "scheduled" }

/-- A parsed carrier response carrying an error code and no confirmation. -/
def sampleFailRd : ResponseData :=
  { Code := "S04", Message := "pickup cannot be made today" }

/-! ## Helper lemmas -/

theorem int64wrap_eq_self (x : Int) (h1 : -(2 ^ 63) ≤ x) (h2 : x < 2 ^ 63) :
    int64wrap x = x := by
  unfold int64wrap
  have h : (x + 2 ^ 63) % 2 ^ 64 = x + 2 ^ 63 :=
    Int.emod_eq_of_lt (by omega) (by omega)
  omega

theorem applyOps_preserves_N (ops : List ApiOp) :
    ∀ s : SaiaState, s.testMode = "N" → (applyOps ops s).testMode = "N" := by
  induction ops with
  | nil => intro s h; exact h
  | cons op t ih =>
      intro s h
      show (applyOps t (applyOp op s)).testMode = "N"
      apply ih
      cases op with
      | setProductionMode b => cases b with | true => rfl | false => exact h
      | setTimeout d => exact h
      | requestPickup p net => exact h

theorem requestPickup_posts (s : SaiaState) (p : Request) (net : NetOutcome) :
    (RequestPickup s p net).posts
      = [{ url := saiaURL, contentType := "text/xml",
           body := xmlHeader ++ marshalRequest { p with TestMode := s.testMode } }] := by
  cases net with
  | postError m => rfl
  | readError m => rfl
  | unmarshalError m filled => rfl
  | parsed status rd =>
      simp only [RequestPickup, RequestPickupWith]
      split <;> rfl

theorem requestPickup_req (s : SaiaState) (p : Request) (net : NetOutcome) :
    (RequestPickup s p net).req = { p with TestMode := s.testMode } := by
  cases net with
  | postError m => rfl
  | readError m => rfl
  | unmarshalError m filled => rfl
  | parsed status rd =>
      simp only [RequestPickup, RequestPickupWith]
      split <;> rfl

/-! ## The claims -/

/-- C1 counterexample: `SetProductionMode(true)` does not give the next
`RequestPickup` a production URL distinct from the test URL — the call
after `SetProductionMode(true)` posts to exactly the same (single,
constant) URL as a call in the default state. -/
theorem c1_same_url_counterexample :
    (RequestPickup (SetProductionMode true initState) sampleRequest sampleOkNet).posts.map
        PostCall.url
      = (RequestPickup initState sampleRequest sampleOkNet).posts.map PostCall.url
    ∧ (RequestPickup (SetProductionMode true initState) sampleRequest sampleOkNet).posts.map
        PostCall.url = [saiaURL] := by
  exact ⟨rfl, rfl⟩

/-- C1 (amended): the endpoint URL is the single constant `saiaURL` for
every call regardless of configuration; `SetProductionMode(true)` instead
sets the process-wide test-mode flag to `"N"`, which the next call
serializes into the request, where the default (no call) serializes
`"Y"`. -/
theorem c1_endpoint_and_testmode :
    (∀ s p net, (RequestPickup s p net).posts.map PostCall.url = [saiaURL])
    ∧ (∀ p net, (RequestPickup (SetProductionMode true initState) p net).req.TestMode = "N")
    ∧ (∀ p net, (RequestPickup initState p net).req.TestMode = "Y") := by
  refine ⟨fun s p net => ?_, fun p net => ?_, fun p net => ?_⟩ <;>
    simp [requestPickup_posts, requestPickup_req, initState, SetProductionMode]

/-- C2: for every carrier response that is received and parsed, the error
is nil iff the code is empty and the confirmation number nonempty, and the
HTTP status code plays no role in the classification. -/
theorem c2_business_classification (s : SaiaState) (p : Request) (status status2 : Nat)
    (rd : ResponseData) :
    ((RequestPickup s p (.parsed status rd)).err = none
        ↔ (rd.Code = "" ∧ rd.PickupNumber ≠ ""))
    ∧ RequestPickup s p (.parsed status rd) = RequestPickup s p (.parsed status2 rd) := by
  refine ⟨?_, rfl⟩
  cases hc : (rd.Code != "" || rd.PickupNumber == "") with
  | true =>
      have h2 : rd.Code ≠ "" ∨ rd.PickupNumber = "" := by
        simpa [Bool.or_eq_true, bne_iff_ne, beq_iff_eq] using hc
      simp only [RequestPickup, RequestPickupWith, hc, if_true]
      constructor
      · intro he; exact absurd he (by simp)
      · intro hr; exact absurd h2 (by push_neg; exact ⟨hr.1, hr.2⟩)
  | false =>
      have h2 : rd.Code = "" ∧ rd.PickupNumber ≠ "" := by
        have hh := hc
        simp only [Bool.or_eq_false_iff, bne_eq_false_iff_eq, beq_eq_false_iff_ne] at hh
        exact ⟨hh.1, hh.2⟩
      simp only [RequestPickup, RequestPickupWith, hc, if_false]
      simp [h2.1, h2.2]

/-- C3: `RequestPickup` overwrites the request's `TestMode` with the
process-wide setting before serialization, so the caller-supplied value
influences neither the returned request nor anything posted. -/
theorem c3_testmode_overwritten (s : SaiaState) (p : Request) (net : NetOutcome)
    (m1 m2 : String) :
    (RequestPickup s p net).req.TestMode = s.testMode
    ∧ RequestPickup s { p with TestMode := m1 } net
        = RequestPickup s { p with TestMode := m2 } net := by
  constructor
  · rw [requestPickup_req]
  · rfl

/-- C4: whenever the parsed response is classified as a business-level
failure (non-empty `Code` or empty `PickupNumber`), the returned error text
contains both the carrier's `Message` and the generic failure
description. -/
theorem c4_error_carries_message (s : SaiaState) (p : Request) (status : Nat)
    (rd : ResponseData) (h : rd.Code ≠ "" ∨ rd.PickupNumber = "") :
    ∃ e, (RequestPickup s p (.parsed status rd)).err = some e
      ∧ (∃ a b, e = a ++ rd.Message ++ b)
      ∧ (∃ a b, e = a ++ "saia.RequestPickup - pickup request failed" ++ b) := by
  have hc : (rd.Code != "" || rd.PickupNumber == "") = true := by
    rcases h with h | h <;> simp [bne_iff_ne, beq_iff_eq, h]
  refine ⟨rd.Message ++ ": " ++ "saia.RequestPickup - pickup request failed", ?_, ?_, ?_⟩
  · simp only [RequestPickup, RequestPickupWith, hc, if_true]
  · exact ⟨"", ": " ++ "saia.RequestPickup - pickup request failed",
      by rw [String.append_assoc]; rfl⟩
  · exact ⟨rd.Message ++ ": ", "", by rw [String.append_empty]⟩

/-- C4 witness at a concrete failing response. -/
theorem c4_witness :
    (sampleFailRd.Code ≠ "" ∨ sampleFailRd.PickupNumber = "")
    ∧ ∃ e, (RequestPickup initState sampleRequest (.parsed 200 sampleFailRd)).err = some e
        ∧ (∃ a b, e = a ++ sampleFailRd.Message ++ b)
        ∧ (∃ a b, e = a ++ "saia.RequestPickup - pickup request failed" ++ b) :=
  ⟨Or.inl (by decide),
    c4_error_carries_message initState sampleRequest 200 sampleFailRd (Or.inl (by decide))⟩

/-- C5: a transport-level failure (POST error or body-read error) returns
immediately with a wrapped non-nil error and the zero `ResponseData`,
after exactly one POST attempt — no retry. -/
theorem c5_transport_failure (s : SaiaState) (p : Request) (m : String) :
    ((RequestPickup s p (.postError m)).resp = zeroResponseData
      ∧ (RequestPickup s p (.postError m)).err
          = some ("saia.RequestPickup - could not make post request: " ++ m)
      ∧ (RequestPickup s p (.postError m)).posts.length = 1)
    ∧ ((RequestPickup s p (.readError m)).resp = zeroResponseData
      ∧ (RequestPickup s p (.readError m)).err
          = some ("saia.RequestPickup - could not read response 1: " ++ m)
      ∧ (RequestPickup s p (.readError m)).posts.length = 1) :=
  ⟨⟨rfl, rfl, rfl⟩, ⟨rfl, rfl, rfl⟩⟩

/-- C6: the posted body is the standard XML declaration followed by a
document whose root element is `Create` with the serialized shipment item
nested under `Details>DetailItem`, and the POST carries Content-Type
`text/xml` to `saiaURL`. -/
theorem c6_wire_format (s : SaiaState) (p : Request) (net : NetOutcome) :
    ∃ call, (RequestPickup s p net).posts = [call]
      ∧ call.url = saiaURL
      ∧ call.contentType = "text/xml"
      ∧ ∃ rest, call.body
          = xmlHeader
            ++ xmlElem "Create"
                (xmlElem "Details" (renderDetailItem (marshalItemDoc p.Item)) ++ rest) := by
  refine ⟨_, requestPickup_posts s p net, rfl, rfl, ?_⟩
  exact ⟨renderTopFields (marshalDoc { p with TestMode := s.testMode }), rfl⟩

/-- C7: before any configuration call the test-mode flag is `"Y"` and the
timeout is 10 seconds; `SetTimeout` stores the scaled argument for every
input with no validation, so a non-positive argument is stored as the
corresponding non-positive duration. -/
theorem c7_defaults_and_set_timeout :
    initState.testMode = "Y"
    ∧ initState.timeout = 10 * goSecond
    ∧ (∀ s d, (SetTimeout d s).timeout = int64wrap (d * goSecond))
    ∧ (∀ s d, (SetTimeout d s).testMode = s.testMode)
    ∧ (∀ (s : SaiaState) (d : Int), -(2 ^ 31) ≤ d → d ≤ 0 →
        (SetTimeout d s).timeout = d * goSecond ∧ (SetTimeout d s).timeout ≤ 0) := by
  refine ⟨rfl, ?_, fun s d => rfl, fun s d => rfl, fun s d h1 h2 => ?_⟩
  · show int64wrap (10 * goSecond) = 10 * goSecond
    apply int64wrap_eq_self <;> norm_num [goSecond]
  · have he : (SetTimeout d s).timeout = d * goSecond := by
      show int64wrap (d * goSecond) = d * goSecond
      apply int64wrap_eq_self <;> (unfold goSecond; omega)
    refine ⟨he, ?_⟩
    rw [he]
    unfold goSecond
    omega

/-- C7 witness: a concrete non-positive argument passes through unclamped. -/
theorem c7_witness :
    (-(2 ^ 31) : Int) ≤ -1 ∧ (-1 : Int) ≤ 0
    ∧ (SetTimeout (-1) initState).timeout = -1 * goSecond
    ∧ (SetTimeout (-1) initState).timeout ≤ 0 := by
  refine ⟨by norm_num, by norm_num, ?_⟩
  exact c7_defaults_and_set_timeout.2.2.2.2 initState (-1) (by norm_num) (by norm_num)

/-- C8: serializing a pickup request to the carrier document shape and
deserializing the document yields a value whose fields all equal the
original's, except the test-mode field, which carries the process-wide
setting written over it before serialization. -/
theorem c8_roundtrip (p : Request) (s : SaiaState) :
    unmarshalDoc (marshalDoc { p with TestMode := s.testMode })
      = some { p with TestMode := s.testMode }
    ∧ ({ p with TestMode := s.testMode } : Request).Item = p.Item
    ∧ ({ p with TestMode := s.testMode } : Request).UserID = p.UserID
    ∧ ({ p with TestMode := s.testMode } : Request).Password = p.Password
    ∧ ({ p with TestMode := s.testMode } : Request).AccountNumber = p.AccountNumber
    ∧ ({ p with TestMode := s.testMode } : Request).CompanyName = p.CompanyName
    ∧ ({ p with TestMode := s.testMode } : Request).Street = p.Street
    ∧ ({ p with TestMode := s.testMode } : Request).City = p.City
    ∧ ({ p with TestMode := s.testMode } : Request).State = p.State
    ∧ ({ p with TestMode := s.testMode } : Request).Zipcode = p.Zipcode
    ∧ ({ p with TestMode := s.testMode } : Request).ContactName = p.ContactName
    ∧ ({ p with TestMode := s.testMode } : Request).ContactPhone = p.ContactPhone
    ∧ ({ p with TestMode := s.testMode } : Request).PickupDate = p.PickupDate
    ∧ ({ p with TestMode := s.testMode } : Request).ReadyTime = p.ReadyTime
    ∧ ({ p with TestMode := s.testMode } : Request).CloseTime = p.CloseTime
    ∧ ({ p with TestMode := s.testMode } : Request).SpecialInstructions
        = p.SpecialInstructions := by
  exact ⟨unmarshalDoc_marshalDoc _, rfl, rfl, rfl, rfl, rfl, rfl, rfl, rfl, rfl,
    rfl, rfl, rfl, rfl, rfl, rfl⟩

/-- C9: `SetProductionMode(false)` never changes the state, and once the
flag is `"N"` — in particular after `SetProductionMode(true)` — no
sequence of public operations restores test mode. -/
theorem c9_production_is_permanent (ops : List ApiOp) (s : SaiaState) :
    SetProductionMode false s = s
    ∧ (s.testMode = "N" → (applyOps ops s).testMode = "N")
    ∧ (applyOps ops (SetProductionMode true s)).testMode = "N" := by
  refine ⟨rfl, applyOps_preserves_N ops s, applyOps_preserves_N ops _ rfl⟩

/-- C9 witness: a concrete operation sequence after entering production
mode. -/
theorem c9_witness :
    (SetProductionMode true initState).testMode = "N"
    ∧ (applyOps [ApiOp.setProductionMode false, ApiOp.setTimeout 5]
        (SetProductionMode true initState)).testMode = "N" :=
  ⟨rfl, (c9_production_is_permanent
    [ApiOp.setProductionMode false, ApiOp.setTimeout 5]
    (SetProductionMode true initState)).2.1 rfl⟩

/-- C10: `SetTimeout` stores its argument multiplied by one second
(`10^9` nanoseconds) — the argument is read as a raw count of seconds —
so any in-range argument `d`, in particular an already-scaled 5-second
duration (`5 * 10^9`), yields `d * 10^9` nanoseconds. -/
theorem c10_scaling (s : SaiaState) :
    (∀ d, (SetTimeout d s).timeout = int64wrap (d * goSecond))
    ∧ (∀ d : Int, -(2 ^ 33) ≤ d → d ≤ 2 ^ 33 →
        (SetTimeout d s).timeout = d * goSecond) := by
  refine ⟨fun d => rfl, fun d h1 h2 => ?_⟩
  show int64wrap (d * goSecond) = d * goSecond
  apply int64wrap_eq_self <;> (unfold goSecond; omega)

/-- C10 witness: passing the already-scaled value `5 * 10^9` ("5 seconds"
as a `time.Duration`) stores `5 * 10^18` nanoseconds, i.e. five billion
seconds. -/
theorem c10_witness :
    (-(2 ^ 33) : Int) ≤ 5 * goSecond ∧ (5 * goSecond : Int) ≤ 2 ^ 33
    ∧ (SetTimeout (5 * goSecond) initState).timeout = 5 * goSecond * goSecond :=
  ⟨by norm_num [goSecond], by norm_num [goSecond],
    (c10_scaling initState).2 (5 * goSecond) (by norm_num [goSecond])
      (by norm_num [goSecond])⟩
